import Mathlib

/-!
Verification of the flask task manager (src/app.py, src/validation/validate.py,
src/db/models.py, src/db/db.py) against its natural-language specification.

The embedding is shallow: each handler and validator is translated into an
executable Lean function over an explicit store state.  Python strings are
Lean `String`s; Python `str.strip` is modelled by `String.trim` and
`str.lower` / SQL `ILIKE` case folding by an ASCII lowercasing table (the
source only ever compares ASCII literals).  The SQLAlchemy session is
modelled by explicit state passing: a request computes a pending task value,
and only `db.commit()` publishes it into the store; an early `return` inside
the `with get_db()` block closes the session without commit, which discards
the pending value (SQLAlchemy rolls back on close), so those paths return the
store unchanged.
-/

deriving instance DecidableEq for Except

namespace TaskManager

/-! ## Python string primitives used by the source -/

/-- The whitespace characters removed by Python `str.strip()` (ASCII part). -/
def isPySpace (c : Char) : Bool :=
  c = ' ' ∨ c = '\t' ∨ c = '\n' ∨ c = '\r' ∨ c = '\x0b' ∨ c = '\x0c'

/-- Python `s.strip()`: remove leading and trailing whitespace. -/
def pyStrip (s : String) : String :=
  ⟨((s.data.dropWhile isPySpace).reverse.dropWhile isPySpace).reverse⟩

/-! ## Task entity (src/db/models.py) -/

/-- `class TaskStatus(enum.Enum)`: the closed three-value status enumeration. -/
inductive TaskStatus
  | todo
  | in_progress
  | done
deriving DecidableEq, Repr

/-- `TaskStatus.<member>.value`: the literal string value of each member. -/
def TaskStatus.value : TaskStatus → String
  | .todo => "todo"
  | .in_progress => "in_progress"
  | .done => "done"

/-- Iteration order of the enum members, as in `[s.value for s in TaskStatus]`. -/
def TaskStatus.all : List TaskStatus := [.todo, .in_progress, .done]

/-- The enum constructor `TaskStatus(s)` looks a member up by value; it raises
`ValueError` when no member has that value, modelled by `none`. -/
def TaskStatus.ofString (s : String) : Option TaskStatus :=
  if s = "todo" then some .todo
  else if s = "in_progress" then some .in_progress
  else if s = "done" then some .done
  else none

/-- A calendar date (`datetime.date`): year, month, day. -/
structure Date where
  year : Nat
  month : Nat
  day : Nat
deriving DecidableEq, Repr

def isLeapYear (y : Nat) : Bool :=
  (y % 4 == 0 && y % 100 != 0) || y % 400 == 0

def daysInMonth (y m : Nat) : Nat :=
  if m = 2 then (if isLeapYear y then 29 else 28)
  else if m = 4 ∨ m = 6 ∨ m = 9 ∨ m = 11 then 30
  else 31

def digitVal (c : Char) : Option Nat :=
  if '0' ≤ c ∧ c ≤ '9' then some (c.toNat - '0'.toNat) else none

/-- Parsing of an ISO-8601 calendar date `YYYY-MM-DD` into a valid calendar
date.  This models both `date.fromisoformat` (src/app.py update path) and the
validation library's string-to-date coercion on the `YYYY-MM-DD` format; any
other text is rejected. -/
def parseIsoDate (s : String) : Option Date :=
  match s.data with
  | [y1, y2, y3, y4, h1, m1, m2, h2, d1, d2] =>
    if h1 = '-' ∧ h2 = '-' then
      match digitVal y1, digitVal y2, digitVal y3, digitVal y4,
            digitVal m1, digitVal m2, digitVal d1, digitVal d2 with
      | some a, some b, some c, some d, some e, some f, some g, some h =>
        let y := ((a * 10 + b) * 10 + c) * 10 + d
        let m := e * 10 + f
        let dd := g * 10 + h
        if 1 ≤ m ∧ m ≤ 12 ∧ 1 ≤ dd ∧ dd ≤ daysInMonth y m then some ⟨y, m, dd⟩
        else none
      | _, _, _, _, _, _, _, _ => none
    else none
  | _ => none

/-- A persisted task row (`class Task(Base)` in src/db/models.py).
`created_at` timestamps are abstracted to `Nat`. -/
structure Task where
  id : Nat
  title : String
  description : Option String
  status : TaskStatus
  created_at : Nat
  due_date : Option Date
deriving DecidableEq, Repr

/-- The backing table of tasks, with the store's auto-increment counter. -/
structure Store where
  tasks : List Task
  nextId : Nat
deriving DecidableEq, Repr

def Store.empty : Store := { tasks := [], nextId := 1 }

/-- Module-import state: `created_at` has column default
`datetime.now(timezone.utc)`, a plain value computed once when
src/db/models.py executes (not a callable evaluated per insert). -/
structure Env where
  defaultCreatedAt : Nat
deriving DecidableEq, Repr

/-- Importing src/db/models.py evaluates `datetime.now(timezone.utc)` once and
stores the resulting constant as the column default. -/
def moduleInit (importTime : Nat) : Env := { defaultCreatedAt := importTime }

/-- `db.execute(select(Task).where(Task.id == id)).scalar_one_or_none()`. -/
def findT (l : List Task) (id : Nat) : Option Task :=
  l.find? (fun t => t.id == id)

/-! ## Validation (src/validation/validate.py) -/

/-- The validation failures that `TaskSchema(**payload)` can produce. -/
inductive ValidationErr
  | missing_title
  | title_too_short
  | invalid_status
  | invalid_due_date
deriving DecidableEq, Repr

/-- The error messages the source itself fixes, via
`PydanticCustomError("missing_title", "missing title")` and
`PydanticCustomError("invalid_status", f"invalid status")`; the other two
messages are generated by the validation library, not the source. -/
def ValidationErr.customMsg : ValidationErr → Option String
  | .missing_title => some "missing title"
  | .invalid_status => some "invalid status"
  | _ => none

/-- A JSON creation payload, restricted to the field types the handlers
actually consume: each field is either absent (`none`) or a JSON string.
(`description` present-as-null and absent both yield `None` in the schema, so
they are identified; non-string `title` values raise an uncaught
`AttributeError` in the source and are outside the model.) -/
structure CreatePayload where
  title? : Option String := none
  status? : Option String := none
  due_date? : Option String := none
  description : Option String := none
deriving DecidableEq, Repr

/-- `check_title`, the `@model_validator(mode="before")`:
`if "title" not in v or not v["title"].strip(): raise ...("missing title")`. -/
def check_title (p : CreatePayload) : Except ValidationErr Unit :=
  match p.title? with
  | none => .error .missing_title
  | some t => if pyStrip t = "" then .error .missing_title else .ok ()

def allowedStatusValues : List String := TaskStatus.all.map TaskStatus.value

/-- `check_status`, the field validator on `status`:
`allowed = [s.value for s in TaskStatus]; if v not in allowed: raise ...`. -/
def check_status (v : String) : Except ValidationErr String :=
  if v ∈ allowedStatusValues then .ok v else .error .invalid_status

/-- `status: Optional[str] = TaskStatus.todo.value`: an absent field takes the
default `"todo"` (field validators are not run on defaults); a present field
goes through `check_status`. -/
def statusField : Option String → Except ValidationErr String
  | none => .ok TaskStatus.todo.value
  | some v => check_status v

/-- A Python value reaching the `due_date` field validator. -/
inductive PyVal
  | pynone
  | pystr (s : String)
  | pydate (d : Date)
deriving DecidableEq, Repr

/-- The body of `validate_due_date` exactly as written in the source:
`if v in (None, ""): return None`, `if isinstance(v, date): return v`, then
`date.fromisoformat(v)` with a `ValueError` on failure. -/
def validate_due_date (v : PyVal) : Except ValidationErr (Option Date) :=
  if v = .pynone ∨ v = .pystr "" then .ok none
  else match v with
    | .pydate d => .ok (some d)
    | .pystr s =>
      match parseIsoDate s with
      | some d => .ok (some d)
      | none => .error .invalid_due_date
    | .pynone => .ok none

/-- The library's coercion of the raw `due_date` JSON value into
`Optional[date]`.  `@field_validator` defaults to mode `after`, so this
coercion runs BEFORE `validate_due_date`: an absent field stays `None`, and a
string must already parse as a date, otherwise validation fails here and the
validator body is never reached (its `""` and string-parsing branches are
dead code). -/
def coerceOptDate : Option String → Except ValidationErr PyVal
  | none => .ok .pynone
  | some s =>
    match parseIsoDate s with
    | some d => .ok (.pydate d)
    | none => .error .invalid_due_date

/-- The effective `due_date` field pipeline: coercion, then the validator. -/
def dueDateField (v : Option String) : Except ValidationErr (Option Date) :=
  match coerceOptDate v with
  | .error e => .error e
  | .ok pv => validate_due_date pv

/-- The normalized value produced by a successful `TaskSchema(**payload)`. -/
structure ValidatedTask where
  title : String
  status : String
  due_date : Option Date
  description : Option String
deriving DecidableEq, Repr

/-- `TaskSchema(**payload)`: the before-mode model validator `check_title`
runs first, then the fields are validated in declaration order
(`title` with `Field(..., min_length=1)`, then `status`, then `due_date`;
`description` has no constraint).  The first failure is reported, matching
`e.errors()[0]` in the handlers. -/
def TaskSchema_validate (p : CreatePayload) : Except ValidationErr ValidatedTask :=
  match check_title p with
  | .error e => .error e
  | .ok _ =>
    match p.title? with
    | none => .error .missing_title
    | some ttl =>
      if ttl.length < 1 then .error .title_too_short
      else
        match statusField p.status? with
        | .error e => .error e
        | .ok st =>
          match dueDateField p.due_date? with
          | .error e => .error e
          | .ok dd => .ok ⟨ttl, st, dd, p.description⟩

/-! ## String helpers: case folding and SQL LIKE matching -/

/-- ASCII lowercasing of one character, modelling Python `str.lower` and the
case folding performed by SQL `ILIKE` (the source only compares ASCII text;
non-ASCII case mapping is outside the model). -/
def lowerChar (c : Char) : Char :=
  match c with
  | 'A' => 'a' | 'B' => 'b' | 'C' => 'c' | 'D' => 'd' | 'E' => 'e' | 'F' => 'f'
  | 'G' => 'g' | 'H' => 'h' | 'I' => 'i' | 'J' => 'j' | 'K' => 'k' | 'L' => 'l'
  | 'M' => 'm' | 'N' => 'n' | 'O' => 'o' | 'P' => 'p' | 'Q' => 'q' | 'R' => 'r'
  | 'S' => 's' | 'T' => 't' | 'U' => 'u' | 'V' => 'v' | 'W' => 'w' | 'X' => 'x'
  | 'Y' => 'y' | 'Z' => 'z'
  | c => c

/-- Python `s.lower()` on a string (ASCII). -/
def pyLower (s : String) : String := ⟨s.data.map lowerChar⟩

/-- The lowered character sequence of a string. -/
def lowerData (s : String) : List Char := s.data.map lowerChar

/-- SQL `LIKE` pattern matching over character lists: `%` matches any
(possibly empty) sequence, `_` matches exactly one character, every other
pattern character matches itself.  No escape character is used (the source
calls `ilike` without an `escape` argument and feeds `q` into the pattern
unescaped). -/
def likeMatch : List Char → List Char → Bool
  | [], ts => ts.isEmpty
  | p :: ps, ts =>
    if p = '%' then ts.tails.any (fun suf => likeMatch ps suf)
    else
      match ts with
      | [] => false
      | t :: ts' => if p = '_' then likeMatch ps ts' else p == t && likeMatch ps ts'

/-- `column.ilike(pattern)`: case-insensitive LIKE, i.e. LIKE after folding
both sides to lower case. -/
def ilike (text pat : String) : Bool :=
  likeMatch (lowerData pat) (lowerData text)

/-- The f-string `f"%{q}%"`: a `%` on each side of the query text. -/
def ilikePattern (q : String) : String := ⟨'%' :: (q.data ++ ['%'])⟩

/-- The `q` filter of `alltasks`:
`or_(Task.title.ilike(f"%{q}%"), Task.description.ilike(f"%{q}%"))`.
A SQL `NULL` description never matches (`NULL ILIKE p` is not true). -/
def qMatches (q : String) (t : Task) : Bool :=
  ilike t.title (ilikePattern q) ||
    (match t.description with
     | some d => ilike d (ilikePattern q)
     | none => false)

/-! ## Sorting (the ORDER BY of `alltasks`) -/

inductive SortCol
  | created_at
  | due_date
deriving DecidableEq, Repr

inductive SortOrd
  | asc
  | desc
deriving DecidableEq, Repr

/-- Lexicographic order on calendar dates. -/
def Date.le (a b : Date) : Bool :=
  decide (a.year < b.year) ||
    (a.year == b.year &&
      (decide (a.month < b.month) ||
        (a.month == b.month && decide (a.day ≤ b.day))))

/-- Order on nullable dates; `NULL`s are placed first in ascending order
(the store's default null ordering is backend-specific — the spec leaves the
convention open — so this is a fixed model choice). -/
def optDateLe : Option Date → Option Date → Bool
  | none, _ => true
  | some _, none => false
  | some a, some b => Date.le a b

/-- The comparison realised by `order_by(desc(col))` / `order_by(asc(col))`. -/
def taskLe (c : SortCol) (o : SortOrd) (a b : Task) : Bool :=
  let le :=
    match c with
    | .created_at => decide (a.created_at ≤ b.created_at)
    | .due_date => optDateLe a.due_date b.due_date
  match o with
  | .asc => le
  | .desc => !le || (match c with
      | .created_at => a.created_at == b.created_at
      | .due_date => a.due_date == b.due_date)

def insertLe (le : Task → Task → Bool) (t : Task) : List Task → List Task
  | [] => [t]
  | u :: us => if le t u then t :: u :: us else u :: insertLe le t us

/-- The store's ORDER BY, modelled as an insertion sort with the chosen
comparison (the claims depend on which rows are returned, not on tie order). -/
def sortTasks (c : SortCol) (o : SortOrd) : List Task → List Task
  | [] => []
  | t :: ts => insertLe (taskLe c o) t (sortTasks c o ts)

/-! ## GET /api/v1/tasks (`alltasks`, src/app.py) -/

/-- `sort_by = request.args.get("sort", "created_at").strip()` followed by
`Task.created_at if sort_by == "created_at" else Task.due_date`. -/
def sortColumnOf (sortParam : Option String) : SortCol :=
  if pyStrip (sortParam.getD "created_at") = "created_at" then .created_at else .due_date

/-- `order = request.args.get("order", "asc").lower()` followed by
`desc(...) if order == "desc" else asc(...)`. -/
def sortOrderOf (orderParam : Option String) : SortOrd :=
  if pyLower (orderParam.getD "asc") = "desc" then .desc else .asc

structure ListParams where
  q : Option String := none
  status : Option String := none
  sort : Option String := none
  order : Option String := none
deriving DecidableEq, Repr

inductive ListResult
  | ok (tasks : List Task)
  | invalidStatus
deriving DecidableEq, Repr

/-- HTTP status of a list response (`"Invalid status", 400` on a bad filter). -/
def ListResult.httpStatus : ListResult → Nat
  | .ok _ => 200
  | .invalidStatus => 400

/-- The `GET /api/v1/tasks` handler `alltasks`. -/
def alltasks (s : Store) (ps : ListParams) : ListResult :=
  let q := pyStrip (ps.q.getD "")
  let status := pyStrip (ps.status.getD "")
  let l1 := if q = "" then s.tasks else s.tasks.filter (qMatches q)
  let filtered : Option (List Task) :=
    if status = "" then some l1
    else
      match TaskStatus.ofString status with
      | none => none
      | some st => some (l1.filter (fun t => t.status == st))
  match filtered with
  | none => .invalidStatus
  | some l2 => .ok (sortTasks (sortColumnOf ps.sort) (sortOrderOf ps.order) l2)

/-! ## POST /api/v1/tasks (`create_task`, src/app.py) -/

inductive CreateResult
  | created (t : Task)
  | validationError (e : ValidationErr)
  | serverError
deriving DecidableEq, Repr

def CreateResult.httpStatus : CreateResult → Nat
  | .created _ => 201
  | .validationError _ => 400
  | .serverError => 500

/-- The `POST /api/v1/tasks` handler.  `now` is the wall clock at request
time; the handler never reads it, because the `created_at` column default was
already evaluated at module import (`Env.defaultCreatedAt`), so every insert
stamps that constant.  The `serverError` branch models the uncaught
`ValueError` a `TaskStatus(validated.status)` call would raise; it is
unreachable because validation only passes enumeration values through. -/
def create_task (env : Env) (s : Store) (now : Nat) (p : CreatePayload) :
    CreateResult × Store :=
  match TaskSchema_validate p with
  | .error e => (.validationError e, s)
  | .ok v =>
    match TaskStatus.ofString v.status with
    | none => (.serverError, s)
    | some st =>
      let t : Task :=
        { id := s.nextId, title := v.title, description := v.description,
          status := st, created_at := env.defaultCreatedAt, due_date := v.due_date }
      (.created t, { tasks := s.tasks ++ [t], nextId := s.nextId + 1 })

/-! ## PATCH /api/v1/tasks/{id} (`update_task`, src/app.py) -/

/-- A JSON patch body.  Outer `Option` is key presence; for `description` and
`due_date` the inner `Option` distinguishes a JSON `null` from a string.
`extraKeys` records whether the body holds keys the handler ignores (any such
key makes the body non-empty without affecting the result). -/
structure UpdatePayload where
  title? : Option String := none
  description? : Option (Option String) := none
  status? : Option String := none
  due_date? : Option (Option String) := none
  extraKeys : Bool := false
deriving DecidableEq, Repr

/-- `if not data`: the parsed JSON body is empty/falsy. -/
def UpdatePayload.isEmpty (p : UpdatePayload) : Bool :=
  p.title?.isNone && p.description?.isNone && p.status?.isNone &&
    p.due_date?.isNone && !p.extraKeys

inductive UpdateResult
  | success (t : Task)
  | noData
  | notFound
  | invalidStatus
  | dateError
deriving DecidableEq, Repr

/-- HTTP status codes of `update_task`'s return statements; the malformed
`due_date` path raises an uncaught `ValueError`, surfaced as a 500. -/
def UpdateResult.httpStatus : UpdateResult → Nat
  | .success _ => 200
  | .noData => 400
  | .notFound => 400
  | .invalidStatus => 400
  | .dateError => 500

/-- The error body of each failure return of `update_task`. -/
def UpdateResult.errorMessage : UpdateResult → Option String
  | .success _ => none
  | .noData => some "no data provided"
  | .notFound => some "task not found"
  | .invalidStatus => some "invalid status"
  | .dateError => none

/-- `if "title" in data: task.title = data["title"]` — the payload title is
assigned verbatim, with no validation. -/
def applyTitle (t : Task) : Option String → Task
  | some v => { t with title := v }
  | none => t

/-- `if "description" in data: task.description = data["description"]`. -/
def applyDescription (t : Task) : Option (Option String) → Task
  | some v => { t with description := v }
  | none => t

/-- `if "status" in data: task.status = TaskStatus(data["status"])`, where an
invalid value raises `ValueError`, caught and turned into the 400 response
(`none`). -/
def applyStatus (t : Task) : Option String → Option Task
  | none => some t
  | some v =>
    match TaskStatus.ofString v with
    | some st => some { t with status := st }
    | none => none

/-- `if "due_date" in data: task.due_date = date.fromisoformat(data["due_date"])
if data["due_date"] else None`.  A JSON `null` or `""` is falsy and clears the
date; malformed text raises an uncaught `ValueError` (`none`). -/
def applyDueDate (t : Task) : Option (Option String) → Option Task
  | none => some t
  | some none => some { t with due_date := none }
  | some (some str) =>
    if str = "" then some { t with due_date := none }
    else
      match parseIsoDate str with
      | some d => some { t with due_date := some d }
      | none => none

/-- `db.commit()` publishes the session's pending task into the store. -/
def replaceT (l : List Task) (id : Nat) (t : Task) : List Task :=
  l.map (fun u => if u.id == id then t else u)

/-- The `PATCH /api/v1/tasks/<task_id>` handler.  Field assignments mutate
only the session's pending copy of the row; the store changes exactly at
`db.commit()`.  The early error returns leave the `with get_db()` block,
which closes the session without commit and so discards the pending
assignments — those paths return the store unchanged. -/
def update_task (s : Store) (task_id : Nat) (p : UpdatePayload) :
    UpdateResult × Store :=
  if p.isEmpty then (.noData, s)
  else
    match findT s.tasks task_id with
    | none => (.notFound, s)
    | some task0 =>
      match applyStatus (applyDescription (applyTitle task0 p.title?) p.description?)
          p.status? with
      | none => (.invalidStatus, s)
      | some task3 =>
        match applyDueDate task3 p.due_date? with
        | none => (.dateError, s)
        | some task4 =>
          (.success task4, { s with tasks := replaceT s.tasks task_id task4 })

/-! ## Store invariants and request steps -/

/-- The spec's title invariant: every persisted task has a non-empty title. -/
def titleInv (s : Store) : Prop := ∀ t ∈ s.tasks, t.title ≠ ""

/-! ## Lemmas about LIKE matching -/

/-- A pattern free of the LIKE metacharacters `%` and `_` matches literally. -/
def litPat (ps : List Char) : Prop := ∀ c ∈ ps, c ≠ '%' ∧ c ≠ '_'

/-- `q` holds a LIKE metacharacter. -/
def hasLikeMeta (q : String) : Bool := q.data.any (fun c => c == '%' || c == '_')

/-- Case-insensitive substring containment: what the spec asks of the filter. -/
def containsCI (hay needle : String) : Prop := lowerData needle <:+: lowerData hay

/-- Plain (case-sensitive) substring containment, used to state what an error
message mentions. -/
def strContains (hay needle : String) : Prop := needle.data <:+: hay.data

instance (hay needle : String) : Decidable (containsCI hay needle) :=
  inferInstanceAs (Decidable (lowerData needle <:+: lowerData hay))

instance (hay needle : String) : Decidable (strContains hay needle) :=
  inferInstanceAs (Decidable (needle.data <:+: hay.data))

instance (s : Store) : Decidable (titleInv s) :=
  inferInstanceAs (Decidable (∀ t ∈ s.tasks, t.title ≠ ""))

theorem likeMatch_percent_eq (ps ts : List Char) :
    likeMatch ('%' :: ps) ts = ts.tails.any (fun suf => likeMatch ps suf) := by
  simp [likeMatch]

theorem likeMatch_percent_iff (ps ts : List Char) :
    likeMatch ('%' :: ps) ts = true ↔ ∃ suf, suf <:+ ts ∧ likeMatch ps suf = true := by
  rw [likeMatch_percent_eq, List.any_eq_true]
  exact exists_congr fun suf => and_congr_left fun _ => List.mem_tails suf ts

theorem likeMatch_lit_append_percent :
    ∀ ps : List Char, litPat ps → ∀ ts, likeMatch (ps ++ ['%']) ts = true ↔ ps <+: ts := by
  intro ps
  induction ps with
  | nil =>
    intro _ ts
    simp only [List.nil_append, List.nil_prefix, iff_true]
    rw [show (['%'] : List Char) = '%' :: [] from rfl, likeMatch_percent_iff]
    exact ⟨[], List.nil_suffix, rfl⟩
  | cons p ps ih =>
    intro hlit ts
    have hp1 : p ≠ '%' := (hlit p (List.mem_cons_self p ps)).1
    have hp2 : p ≠ '_' := (hlit p (List.mem_cons_self p ps)).2
    have hlit' : litPat ps := fun c hc => hlit c (List.mem_cons_of_mem p hc)
    cases ts with
    | nil =>
      simp only [List.cons_append, likeMatch, if_neg hp1, List.prefix_nil]
      simp
    | cons t ts' =>
      simp only [List.cons_append, likeMatch, if_neg hp1, if_neg hp2,
        List.cons_prefix_cons, Bool.and_eq_true, beq_iff_eq]
      exact and_congr_right fun _ => ih hlit' ts'

theorem likeMatch_lit_infix_iff (q ts : List Char) (hlit : litPat q) :
    likeMatch ('%' :: (q ++ ['%'])) ts = true ↔ q <:+: ts := by
  rw [likeMatch_percent_iff]
  constructor
  · rintro ⟨suf, hsuf, hm⟩
    rw [likeMatch_lit_append_percent q hlit suf] at hm
    exact List.infix_iff_prefix_suffix.mpr ⟨suf, hm, hsuf⟩
  · intro h
    obtain ⟨mid, hpre, hsuf⟩ := List.infix_iff_prefix_suffix.mp h
    exact ⟨mid, hsuf, (likeMatch_lit_append_percent q hlit mid).mpr hpre⟩

theorem lowerChar_preserves_nonmeta (c : Char) (h1 : c ≠ '%') (h2 : c ≠ '_') :
    lowerChar c ≠ '%' ∧ lowerChar c ≠ '_' := by
  unfold lowerChar
  split <;> first | decide | exact ⟨h1, h2⟩

theorem litPat_lowerData (q : String) (h : hasLikeMeta q = false) :
    litPat (lowerData q) := by
  intro c hc
  rw [lowerData, List.mem_map] at hc
  obtain ⟨c0, hc0, rfl⟩ := hc
  rw [hasLikeMeta, List.any_eq_false] at h
  have h0 := h c0 hc0
  simp only [Bool.or_eq_true, beq_iff_eq, not_or] at h0
  exact lowerChar_preserves_nonmeta c0 h0.1 h0.2

theorem lowerData_ilikePattern (q : String) :
    lowerData (ilikePattern q) = '%' :: (lowerData q ++ ['%']) := by
  simp only [lowerData, ilikePattern, List.map_cons, List.map_append]
  rfl

/-- With no metacharacter in `q`, the source's `ilike(f"%{q}%")` test is
exactly case-insensitive substring containment. -/
theorem ilike_pattern_iff (q text : String) (h : hasLikeMeta q = false) :
    ilike text (ilikePattern q) = true ↔ containsCI text q := by
  rw [ilike, containsCI, lowerData_ilikePattern,
    likeMatch_lit_infix_iff _ _ (litPat_lowerData q h)]

theorem qMatches_iff (q : String) (t : Task) (h : hasLikeMeta q = false) :
    qMatches q t = true ↔
      containsCI t.title q ∨ ∃ d, t.description = some d ∧ containsCI d q := by
  rw [qMatches, Bool.or_eq_true, ilike_pattern_iff q t.title h]
  cases hd : t.description with
  | none => simp
  | some d => simp [ilike_pattern_iff q d h]

/-! ## Lemmas about the modelled ORDER BY -/

theorem mem_insertLe (le : Task → Task → Bool) (t a : Task) :
    ∀ l, a ∈ insertLe le t l ↔ a = t ∨ a ∈ l := by
  intro l
  induction l with
  | nil => simp [insertLe]
  | cons u us ih =>
    rw [insertLe]
    split
    · simp [List.mem_cons]
    · simp only [List.mem_cons, ih]
      tauto

theorem mem_sortTasks (c : SortCol) (o : SortOrd) (a : Task) :
    ∀ l, a ∈ sortTasks c o l ↔ a ∈ l := by
  intro l
  induction l with
  | nil => simp [sortTasks]
  | cons t ts ih =>
    rw [sortTasks, mem_insertLe]
    simp [ih]

/-! ## Lemmas about validation -/

theorem string_eq_empty_of_length_lt {t : String} (h : t.length < 1) : t = "" := by
  cases t with
  | mk data =>
    cases data with
    | nil => rfl
    | cons c cs => simp [String.length] at h

theorem not_length_lt_of_pyStrip_ne {t : String} (h : pyStrip t ≠ "") :
    ¬ t.length < 1 := by
  intro hlt
  exact h (by rw [string_eq_empty_of_length_lt hlt]; rfl)

/-- The shape of a successful validation: the title is the payload title
verbatim (only checked, never trimmed), with a non-whitespace content; the
status and due date come from their field pipelines; the description passes
through. -/
theorem TaskSchema_validate_ok {p : CreatePayload} {v : ValidatedTask}
    (h : TaskSchema_validate p = .ok v) :
    p.title? = some v.title ∧ pyStrip v.title ≠ "" ∧
      statusField p.status? = .ok v.status ∧
      dueDateField p.due_date? = .ok v.due_date ∧
      v.description = p.description := by
  cases hT : p.title? with
  | none => simp [TaskSchema_validate, check_title, hT] at h
  | some ttl =>
    by_cases hs : pyStrip ttl = ""
    · simp [TaskSchema_validate, check_title, hT, hs] at h
    · simp only [TaskSchema_validate, check_title, hT, if_neg hs] at h
      split at h
      · simp at h
      · split at h
        · simp at h
        · rename_i st hst
          split at h
          · simp at h
          · rename_i dd hdd
            have hv : v = ⟨ttl, st, dd, p.description⟩ := by
              injection h with h2
              exact h2.symm
            subst hv
            exact ⟨rfl, hs, hst, hdd, rfl⟩

theorem statusField_ok_mem {sv : Option String} {st : String}
    (h : statusField sv = .ok st) : st ∈ allowedStatusValues := by
  cases sv with
  | none =>
    simp only [statusField] at h
    injection h with h2
    rw [← h2]
    decide
  | some v =>
    simp only [statusField, check_status] at h
    split at h
    · injection h with h2
      subst h2
      assumption
    · simp at h

theorem ofString_isSome_of_mem {st : String} (h : st ∈ allowedStatusValues) :
    (TaskStatus.ofString st).isSome := by
  simp only [allowedStatusValues, TaskStatus.all, TaskStatus.value, List.map_cons,
    List.map_nil, List.mem_cons, List.not_mem_nil, or_false] at h
  rcases h with rfl | rfl | rfl <;> decide

/-- With a present, non-whitespace title and an out-of-range status value,
validation stops at `check_status` with the `invalid_status` error (the
fields are validated in declaration order, so a later malformed `due_date`
does not change the reported error). -/
theorem TaskSchema_validate_invalid_status {p : CreatePayload} {ttl sv : String}
    (hT : p.title? = some ttl) (hs : pyStrip ttl ≠ "") (hS : p.status? = some sv)
    (hsv : sv ∉ allowedStatusValues) :
    TaskSchema_validate p = .error .invalid_status := by
  simp only [TaskSchema_validate, check_title, hT, if_neg hs,
    if_neg (not_length_lt_of_pyStrip_ne hs), hS]
  simp [statusField, check_status, hsv]

/-! ## Lemmas about the handlers -/

theorem applyTitle_title (t : Task) (o : Option String) :
    (applyTitle t o).title = o.getD t.title := by cases o <;> rfl

theorem applyTitle_rest (t : Task) (o : Option String) :
    (applyTitle t o).id = t.id ∧ (applyTitle t o).description = t.description ∧
      (applyTitle t o).status = t.status ∧ (applyTitle t o).created_at = t.created_at ∧
      (applyTitle t o).due_date = t.due_date := by
  cases o <;> exact ⟨rfl, rfl, rfl, rfl, rfl⟩

theorem applyDescription_description (t : Task) (o : Option (Option String)) :
    (applyDescription t o).description = o.getD t.description := by cases o <;> rfl

theorem applyDescription_rest (t : Task) (o : Option (Option String)) :
    (applyDescription t o).id = t.id ∧ (applyDescription t o).title = t.title ∧
      (applyDescription t o).status = t.status ∧
      (applyDescription t o).created_at = t.created_at ∧
      (applyDescription t o).due_date = t.due_date := by
  cases o <;> exact ⟨rfl, rfl, rfl, rfl, rfl⟩

theorem applyStatus_some {t t' : Task} {o : Option String}
    (h : applyStatus t o = some t') :
    t'.id = t.id ∧ t'.title = t.title ∧ t'.description = t.description ∧
      t'.created_at = t.created_at ∧ t'.due_date = t.due_date ∧
      (o = none → t'.status = t.status) := by
  cases o with
  | none =>
    simp only [applyStatus] at h
    injection h with h2
    subst h2
    exact ⟨rfl, rfl, rfl, rfl, rfl, fun _ => rfl⟩
  | some v =>
    simp only [applyStatus] at h
    split at h
    · injection h with h2
      subst h2
      exact ⟨rfl, rfl, rfl, rfl, rfl, fun hc => by simp at hc⟩
    · simp at h

theorem applyDueDate_some {t t' : Task} {o : Option (Option String)}
    (h : applyDueDate t o = some t') :
    t'.id = t.id ∧ t'.title = t.title ∧ t'.description = t.description ∧
      t'.created_at = t.created_at ∧ t'.status = t.status ∧
      (o = none → t'.due_date = t.due_date) := by
  cases o with
  | none =>
    simp only [applyDueDate] at h
    injection h with h2
    subst h2
    exact ⟨rfl, rfl, rfl, rfl, rfl, fun _ => rfl⟩
  | some v =>
    cases v with
    | none =>
      simp only [applyDueDate] at h
      injection h with h2
      subst h2
      exact ⟨rfl, rfl, rfl, rfl, rfl, fun hc => by simp at hc⟩
    | some str =>
      simp only [applyDueDate] at h
      split at h
      · injection h with h2
        subst h2
        exact ⟨rfl, rfl, rfl, rfl, rfl, fun hc => by simp at hc⟩
      · split at h
        · injection h with h2
          subst h2
          exact ⟨rfl, rfl, rfl, rfl, rfl, fun hc => by simp at hc⟩
        · simp at h

/-- The one way `update_task` can answer 200: the task was found, every
pending assignment succeeded, and commit replaced exactly that row. -/
theorem update_task_success {s : Store} {id : Nat} {p : UpdatePayload} {t' : Task}
    {s' : Store} (h : update_task s id p = (.success t', s')) :
    ∃ t, findT s.tasks id = some t ∧
      s' = { s with tasks := replaceT s.tasks id t' } ∧
      t'.id = t.id ∧ t'.created_at = t.created_at ∧
      t'.title = p.title?.getD t.title ∧
      t'.description = p.description?.getD t.description ∧
      (p.status? = none → t'.status = t.status) ∧
      (p.due_date? = none → t'.due_date = t.due_date) := by
  unfold update_task at h
  split at h
  · simp at h
  · split at h
    · simp at h
    · rename_i t0 hf
      split at h
      · simp at h
      · rename_i t3 hst
        split at h
        · simp at h
        · rename_i t4 hdd
          rw [Prod.mk.injEq] at h
          obtain ⟨h1, h2⟩ := h
          injection h1 with h1
          subst h1
          obtain ⟨d1, d2, d3, d4, d5, d6⟩ := applyDueDate_some hdd
          obtain ⟨e1, e2, e3, e4, e5, e6⟩ := applyStatus_some hst
          obtain ⟨f1, f2, f3, f4, f5⟩ :=
            applyDescription_rest (applyTitle t0 p.title?) p.description?
          obtain ⟨g1, g2, g3, g4, g5⟩ := applyTitle_rest t0 p.title?
          refine ⟨t0, hf, h2.symm, ?_, ?_, ?_, ?_, ?_, ?_⟩
          · rw [d1, e1, f1, g1]
          · rw [d4, e4, f4, g4]
          · rw [d2, e2, f2, applyTitle_title]
          · rw [d3, e3, applyDescription_description, g2]
          · intro hn
            rw [d5, e6 hn, f3, g3]
          · intro hn
            rw [d6 hn, e5, f5, g5]

/-- Every non-200 outcome of `update_task` leaves the store untouched: the
session is closed without commit. -/
theorem update_task_error_store {s : Store} {id : Nat} {p : UpdatePayload}
    {r : UpdateResult} {s' : Store} (h : update_task s id p = (r, s'))
    (hr : ∀ t, r ≠ .success t) : s' = s := by
  unfold update_task at h
  split at h
  · rw [Prod.mk.injEq] at h
    exact h.2.symm
  · split at h
    · rw [Prod.mk.injEq] at h
      exact h.2.symm
    · split at h
      · rw [Prod.mk.injEq] at h
        exact h.2.symm
      · split at h
        · rw [Prod.mk.injEq] at h
          exact h.2.symm
        · rename_i t4 hdd
          rw [Prod.mk.injEq] at h
          exact absurd h.1.symm (hr t4)

/-- The shape of a successful creation: the row stores the validated values
verbatim, the id is the store's next id, and the timestamp is the import-time
column default. -/
theorem create_task_created {env : Env} {s : Store} {now : Nat} {p : CreatePayload}
    {t : Task} {s' : Store} (h : create_task env s now p = (.created t, s')) :
    ∃ v st, TaskSchema_validate p = .ok v ∧ TaskStatus.ofString v.status = some st ∧
      t = ⟨s.nextId, v.title, v.description, st, env.defaultCreatedAt, v.due_date⟩ ∧
      s' = ⟨s.tasks ++ [t], s.nextId + 1⟩ := by
  unfold create_task at h
  split at h
  · simp at h
  · rename_i v hv
    split at h
    · simp at h
    · rename_i st hof
      simp only [Prod.mk.injEq] at h
      obtain ⟨h1, h2⟩ := h
      have ht : t = ⟨s.nextId, v.title, v.description, st, env.defaultCreatedAt, v.due_date⟩ := by
        injection h1 with h1
        exact h1.symm
      exact ⟨v, st, hv, hof, ht, by rw [← h2, ht]⟩

theorem pyStrip_ne_empty {t : String} (h : pyStrip t ≠ "") : t ≠ "" := by
  intro he
  subst he
  exact h rfl

/-- The unreachable defensive branch also leaves the store untouched. -/
theorem create_task_server_store {env : Env} {s : Store} {now : Nat}
    {p : CreatePayload} {s' : Store}
    (h : create_task env s now p = (.serverError, s')) : s' = s := by
  unfold create_task at h
  split at h
  · simp at h
  · split at h
    · rw [Prod.mk.injEq] at h
      exact h.2.symm
    · simp at h

/-- A validation failure leaves the store untouched (no DB access happens). -/
theorem create_task_error_store {env : Env} {s : Store} {now : Nat} {p : CreatePayload}
    {e : ValidationErr} {s' : Store}
    (h : create_task env s now p = (.validationError e, s')) : s' = s := by
  unfold create_task at h
  split at h
  · rw [Prod.mk.injEq] at h
    exact h.2.symm
  · split at h
    · simp at h
    · simp at h

/-! ## Lemmas about the store -/

theorem mem_replaceT {l : List Task} {id : Nat} {t' a : Task}
    (ha : a ∈ replaceT l id t') : a = t' ∨ a ∈ l := by
  rw [replaceT, List.mem_map] at ha
  obtain ⟨u, hu, he⟩ := ha
  by_cases h : (u.id == id) = true
  · rw [if_pos h] at he
    exact .inl he.symm
  · rw [if_neg h] at he
    exact .inr (he ▸ hu)

theorem findT_replaceT {l : List Task} {id : Nat} {t t' : Task}
    (hf : findT l id = some t) (hid : t'.id = t.id) :
    findT (replaceT l id t') id = some t' := by
  induction l with
  | nil => simp [findT] at hf
  | cons u us ih =>
    by_cases h : (u.id == id) = true
    · rw [findT, List.find?_cons_of_pos us h] at hf
      injection hf with hf2
      simp only [replaceT, List.map_cons, if_pos h, findT]
      exact List.find?_cons_of_pos _ (by rw [hid, ← hf2]; exact h)
    · rw [findT, List.find?_cons_of_neg us h] at hf
      simp only [replaceT, List.map_cons, if_neg h, findT]
      have hstep : List.find? (fun t : Task => t.id == id)
          (u :: List.map (fun u => if (u.id == id) = true then t' else u) us) =
          List.find? (fun t : Task => t.id == id)
          (List.map (fun u => if (u.id == id) = true then t' else u) us) :=
        List.find?_cons_of_neg _ h
      rw [hstep]
      exact ih hf

/-! ## Claims -/

/-- C1: the claim says a PATCH of a missing task is a NotFound failure with
HTTP status 404.  The handler's not-found return in `update_task` is
`{"error": "task not found"}, 400`: at the concrete empty store, a PATCH of
task 1 with a valid body answers with the not-found result whose status is
400, not 404 (the store is left unchanged, as the claim also asserts). -/
theorem C1_patch_not_found_returns_400 :
    update_task Store.empty 1 { title? := some "x" } = (.notFound, Store.empty) ∧
    UpdateResult.errorMessage .notFound = some "task not found" ∧
    UpdateResult.httpStatus .notFound = 400 ∧
    ¬ UpdateResult.httpStatus .notFound = 404 :=
  ⟨by decide, rfl, rfl, by decide⟩

/-- C2 counterexample: the claimed invariant "every persisted task's title is
non-empty, preserved by every create/update" fails on a concrete reachable
state: create a task (title "a"), then PATCH it with `{"title": ""}`; the
update succeeds and the store now holds a task with the empty title. -/
theorem C2_counterexample_update_empties_title :
    update_task (create_task ⟨0⟩ Store.empty 0 { title? := some "a" }).2 1
        { title? := some "" } =
      (.success ⟨1, "", none, .todo, 0, none⟩, ⟨[⟨1, "", none, .todo, 0, none⟩], 2⟩) ∧
    ¬ titleInv (update_task (create_task ⟨0⟩ Store.empty 0 { title? := some "a" }).2 1
        { title? := some "" }).2 :=
  ⟨by decide, by decide⟩

/-- C2 (amended): creation always persists a non-empty title (validation
rejects a missing or whitespace-only title and the title is stored verbatim),
and a partial update preserves the invariant provided the payload's title,
when present, is non-empty — the update path assigns the payload title
without any validation, which is exactly what breaks the original claim. -/
theorem C2_title_invariant_amended (env : Env) (s : Store) (now : Nat)
    (p : CreatePayload) (id : Nat) (u : UpdatePayload)
    (hinv : titleInv s) (hu : ∀ v, u.title? = some v → v ≠ "") :
    titleInv (create_task env s now p).2 ∧ titleInv (update_task s id u).2 := by
  constructor
  · rcases hcr : create_task env s now p with ⟨r, s'⟩
    cases r with
    | created t =>
      obtain ⟨v, st, hv, hof, ht, hs'⟩ := create_task_created hcr
      obtain ⟨_, hstrip, _, _, _⟩ := TaskSchema_validate_ok hv
      intro a ha
      rw [hs'] at ha
      rcases List.mem_append.mp ha with hmem | hmem
      · exact hinv a hmem
      · rw [List.mem_singleton] at hmem
        subst hmem
        rw [ht]
        exact pyStrip_ne_empty hstrip
    | validationError e =>
      rw [create_task_error_store hcr]
      exact hinv
    | serverError =>
      rw [create_task_server_store hcr]
      exact hinv
  · rcases hup : update_task s id u with ⟨r, s'⟩
    cases r with
    | success tnew =>
      obtain ⟨t0, hf0, hs', _, _, htitle, _, _, _⟩ := update_task_success hup
      intro a ha
      rw [hs'] at ha
      rcases mem_replaceT ha with rfl | hmem
      · rw [htitle]
        cases hT : u.title? with
        | some v => simpa using hu v hT
        | none => simpa using hinv t0 (List.mem_of_find?_eq_some hf0)
      · exact hinv a hmem
    | noData =>
      rw [update_task_error_store hup (fun t => by simp)]
      exact hinv
    | notFound =>
      rw [update_task_error_store hup (fun t => by simp)]
      exact hinv
    | invalidStatus =>
      rw [update_task_error_store hup (fun t => by simp)]
      exact hinv
    | dateError =>
      rw [update_task_error_store hup (fun t => by simp)]
      exact hinv

/-- C2 witness: the amended preservation applied at a concrete store and
concrete create/update payloads. -/
theorem C2_title_invariant_amended_witness :
    titleInv (create_task ⟨0⟩ Store.empty 0 { title? := some "a" }).2 ∧
    titleInv (update_task Store.empty 1 { title? := some "b" }).2 :=
  C2_title_invariant_amended ⟨0⟩ Store.empty 0 { title? := some "a" } 1
    { title? := some "b" } (by decide)
    (by
      intro v hv
      injection hv with hv
      subst hv
      decide)

/-- C3 counterexample: the claim says the stored and returned title is the
payload title with surrounding whitespace removed.  Creating with the title
" hi " succeeds and stores the title verbatim: the returned title is " hi ",
not the trimmed "hi". -/
theorem C3_counterexample_title_not_trimmed :
    (create_task ⟨0⟩ Store.empty 0 { title? := some " hi " }).1 =
      .created ⟨1, " hi ", none, .todo, 0, none⟩ ∧
    pyStrip " hi " = "hi" ∧ (" hi " : String) ≠ "hi" :=
  ⟨by decide, by decide, by decide⟩

/-- C3 (amended): for every accepted creation payload, the stored and
returned title equals the payload's title verbatim; validation only checks
that the stripped title is non-empty, it never trims what is stored. -/
theorem C3_title_stored_verbatim (env : Env) (s : Store) (now : Nat)
    (p : CreatePayload) (ttl : String) (t : Task) (s' : Store)
    (hT : p.title? = some ttl)
    (h : create_task env s now p = (.created t, s')) :
    t.title = ttl ∧ pyStrip ttl ≠ "" := by
  obtain ⟨v, st, hv, hof, ht, hs'⟩ := create_task_created h
  obtain ⟨h1, h2, _, _, _⟩ := TaskSchema_validate_ok hv
  rw [hT] at h1
  injection h1 with h1
  subst h1
  exact ⟨by rw [ht], h2⟩

/-- C3 witness: the amended statement applied at a concrete payload. -/
theorem C3_title_stored_verbatim_witness :
    (⟨1, " hi ", none, .todo, 0, none⟩ : Task).title = " hi " ∧ pyStrip " hi " ≠ "" :=
  C3_title_stored_verbatim ⟨0⟩ Store.empty 0 { title? := some " hi " } " hi "
    ⟨1, " hi ", none, .todo, 0, none⟩ ⟨[⟨1, " hi ", none, .todo, 0, none⟩], 2⟩
    rfl (by decide)

/-- C4 counterexample: the claim says the 400 error message enumerates the
allowed set `{todo, in_progress, done}`.  Creating with status "bogus" does
fail with the invalid-status error and persists nothing, but the message the
source fixes is exactly "invalid status", which does not even mention
"todo". -/
theorem C4_counterexample_message_not_enumerating :
    create_task ⟨0⟩ Store.empty 0 { title? := some "a", status? := some "bogus" } =
      (.validationError .invalid_status, Store.empty) ∧
    ValidationErr.customMsg .invalid_status = some "invalid status" ∧
    ¬ strContains "invalid status" "todo" :=
  ⟨by decide, rfl, by decide⟩

/-- C4 (amended): for every creation payload with a valid title and a status
value outside the enumeration, creation fails with HTTP 400, persists no row,
and the error message is the fixed string "invalid status" (which does not
enumerate the allowed values). -/
theorem C4_invalid_status_rejected (env : Env) (s : Store) (now : Nat)
    (p : CreatePayload) (ttl sv : String)
    (hT : p.title? = some ttl) (hs : pyStrip ttl ≠ "")
    (hS : p.status? = some sv) (hsv : sv ∉ allowedStatusValues) :
    create_task env s now p = (.validationError .invalid_status, s) ∧
    CreateResult.httpStatus (.validationError .invalid_status) = 400 ∧
    ValidationErr.customMsg .invalid_status = some "invalid status" := by
  refine ⟨?_, rfl, rfl⟩
  unfold create_task
  rw [TaskSchema_validate_invalid_status hT hs hS hsv]

/-- C4 witness: the amended statement applied at a concrete payload. -/
theorem C4_invalid_status_rejected_witness :
    create_task ⟨0⟩ Store.empty 0 { title? := some "b", status? := some "nope" } =
      (.validationError .invalid_status, Store.empty) ∧
    CreateResult.httpStatus (.validationError .invalid_status) = 400 ∧
    ValidationErr.customMsg .invalid_status = some "invalid status" :=
  C4_invalid_status_rejected ⟨0⟩ Store.empty 0
    { title? := some "b", status? := some "nope" } "b" "nope" rfl (by decide) rfl
    (by decide)

/-- C5: the claim says an empty-string due_date is accepted and normalized to
"no due date".  The field validator runs in after mode, so the library's date
coercion rejects "" before the validator's own empty-string branch (which, as
written, returns None) can run: validating a payload with due_date "" fails
with the invalid-due-date error, although `validate_due_date` applied to ""
accepts it — the code contradicts its own validator body.  The remaining
parts of the claim hold: an absent due_date is accepted as None, a
well-formed YYYY-MM-DD date is accepted as that date, and malformed text is
rejected. -/
theorem C5_empty_due_date_rejected :
    TaskSchema_validate { title? := some "a", due_date? := some "" } =
      .error .invalid_due_date ∧
    validate_due_date (.pystr "") = .ok none ∧
    TaskSchema_validate { title? := some "a" } = .ok ⟨"a", "todo", none, none⟩ ∧
    TaskSchema_validate { title? := some "a", due_date? := some "2025-01-10" } =
      .ok ⟨"a", "todo", some ⟨2025, 1, 10⟩, none⟩ ∧
    TaskSchema_validate { title? := some "a", due_date? := some "not-a-date" } =
      .error .invalid_due_date :=
  ⟨by decide, rfl, by decide, by decide, by decide⟩

/-- C6 counterexample: the claim says the sort column is `due_date` for every
sort parameter value other than absent or exactly "created_at".  The handler
strips the parameter first, so the value " created_at " — which is not equal
to "created_at" — still selects the created_at column. -/
theorem C6_counterexample_whitespace_sort_param :
    sortColumnOf (some " created_at ") = .created_at ∧
    (" created_at " : String) ≠ "created_at" ∧ SortCol.created_at ≠ SortCol.due_date :=
  ⟨by decide, by decide, by decide⟩

/-- C6 (amended): the sort column is `created_at` exactly when the sort
parameter is absent or equals "created_at" after stripping surrounding
whitespace (and `due_date` for every other value); the direction is
descending exactly when the order parameter lowercased equals "desc"
(that is, case-insensitively equals "desc"), and ascending otherwise. -/
theorem C6_sort_order_selection (sp op : Option String) :
    (sortColumnOf sp = .created_at ↔
      (sp = none ∨ ∃ v, sp = some v ∧ pyStrip v = "created_at")) ∧
    (sortOrderOf op = .desc ↔ ∃ v, op = some v ∧ pyLower v = "desc") := by
  constructor
  · cases sp with
    | none =>
      constructor
      · intro _
        exact .inl rfl
      · intro _
        decide
    | some v =>
      constructor
      · intro h
        refine .inr ⟨v, rfl, ?_⟩
        by_contra hne
        rw [sortColumnOf, Option.getD_some, if_neg hne] at h
        exact absurd h (by decide)
      · rintro (h | ⟨w, hw, hstripw⟩)
        · exact Option.noConfusion h
        · injection hw with hw
          subst hw
          rw [sortColumnOf, Option.getD_some, if_pos hstripw]
  · cases op with
    | none =>
      constructor
      · intro h
        exact absurd h (by decide)
      · rintro ⟨w, hw, _⟩
        exact Option.noConfusion hw
    | some v =>
      constructor
      · intro h
        refine ⟨v, rfl, ?_⟩
        by_contra hne
        rw [sortOrderOf, Option.getD_some, if_neg hne] at h
        exact absurd h (by decide)
      · rintro ⟨w, hw, hloww⟩
        injection hw with hw
        subst hw
        rw [sortOrderOf, Option.getD_some, if_pos hloww]

/-- C7 counterexample: the claim says the q filter returns exactly the tasks
whose title or description contains q as a case-insensitive substring, for
every q including LIKE metacharacters.  With q = "a_c" the endpoint returns
the task titled "abc" (its description is null), although "a_c" is not a
substring of "abc": the underscore acts as a single-character wildcard in the
unescaped LIKE pattern. -/
theorem C7_counterexample_like_wildcard :
    alltasks ⟨[⟨1, "abc", none, .todo, 0, none⟩], 2⟩ { q := some "a_c" } =
      .ok [⟨1, "abc", none, .todo, 0, none⟩] ∧
    ¬ containsCI "abc" "a_c" ∧
    (⟨1, "abc", none, .todo, 0, none⟩ : Task).description = none :=
  ⟨by decide, by decide, rfl⟩

/-- C7 (amended): the q filter matches the case-insensitive LIKE pattern
%q% built from the trimmed q; whenever that text holds no LIKE
metacharacter (`%` or `_`), the endpoint returns exactly the stored tasks
whose title or (non-null) description contains it as a case-insensitive
substring. -/
theorem C7_q_filter_substring (s : Store) (qp : String) (a : Task)
    (hq : pyStrip qp ≠ "") (hmeta : hasLikeMeta (pyStrip qp) = false) :
    ∃ l, alltasks s { q := some qp } = .ok l ∧
      (a ∈ l ↔ a ∈ s.tasks ∧ (containsCI a.title (pyStrip qp) ∨
        ∃ d, a.description = some d ∧ containsCI d (pyStrip qp))) := by
  refine ⟨sortTasks (sortColumnOf none) (sortOrderOf none)
      (s.tasks.filter (qMatches (pyStrip qp))), ?_, ?_⟩
  · unfold alltasks
    simp only [Option.getD_some, Option.getD_none]
    rw [if_neg hq, if_pos (by decide : pyStrip "" = "")]
  · rw [mem_sortTasks, List.mem_filter]
    exact and_congr_right fun _ => qMatches_iff (pyStrip qp) a hmeta

/-- C7 witness: the amended statement applied at a concrete store, query and
task (q = "b" against a task titled "Abc"). -/
theorem C7_q_filter_substring_witness :
    ∃ l, alltasks ⟨[⟨1, "Abc", none, .todo, 0, none⟩], 2⟩ { q := some "b" } = .ok l ∧
      ((⟨1, "Abc", none, .todo, 0, none⟩ : Task) ∈ l ↔
        (⟨1, "Abc", none, .todo, 0, none⟩ : Task) ∈
            ([⟨1, "Abc", none, .todo, 0, none⟩] : List Task) ∧
          (containsCI "Abc" (pyStrip "b") ∨
            ∃ d, (none : Option String) = some d ∧ containsCI d (pyStrip "b"))) :=
  C7_q_filter_substring ⟨[⟨1, "Abc", none, .todo, 0, none⟩], 2⟩ "b"
    ⟨1, "Abc", none, .todo, 0, none⟩ (by decide) (by decide)

/-- C8: the frame condition of partial update.  For an existing task and any
payload on which the update succeeds, the stored record keeps its id and
created_at, every field whose key is absent from the payload keeps its old
value, the updated row is the one stored under that id afterwards, and every
row of the new store is either the updated row or an old row. -/
theorem C8_update_frame (s : Store) (id : Nat) (p : UpdatePayload) (t tnew : Task)
    (s' : Store) (hfind : findT s.tasks id = some t)
    (hupd : update_task s id p = (.success tnew, s')) :
    tnew.id = t.id ∧ tnew.created_at = t.created_at ∧
    (p.title? = none → tnew.title = t.title) ∧
    (p.description? = none → tnew.description = t.description) ∧
    (p.status? = none → tnew.status = t.status) ∧
    (p.due_date? = none → tnew.due_date = t.due_date) ∧
    findT s'.tasks id = some tnew ∧
    (∀ u ∈ s'.tasks, u = tnew ∨ u ∈ s.tasks) := by
  obtain ⟨t0, hf0, hs', h1, h2, h3, h4, h5, h6⟩ := update_task_success hupd
  have ht0 : t0 = t := by
    rw [hf0] at hfind
    injection hfind
  subst ht0
  refine ⟨h1, h2, ?_, ?_, h5, h6, ?_, ?_⟩
  · intro hn
    rw [h3, hn]
    rfl
  · intro hn
    rw [h4, hn]
    rfl
  · rw [hs']
    exact findT_replaceT hfind h1
  · intro u hu
    rw [hs'] at hu
    exact mem_replaceT hu

/-- C8 witness: updating a task with only a title leaves created_at (and the
other absent fields) unchanged, at a concrete store and payload. -/
theorem C8_update_frame_witness :
    (⟨1, "new", some "d", .todo, 5, none⟩ : Task).created_at =
      (⟨1, "old", some "d", .todo, 5, none⟩ : Task).created_at :=
  (C8_update_frame ⟨[⟨1, "old", some "d", .todo, 5, none⟩], 2⟩ 1
      { title? := some "new" } ⟨1, "old", some "d", .todo, 5, none⟩
      ⟨1, "new", some "d", .todo, 5, none⟩
      ⟨[⟨1, "new", some "d", .todo, 5, none⟩], 2⟩ (by decide) (by decide)).2.1

/-- C9: the created_at column default is the single value computed when the
model module is imported, not a per-insert timestamp: any two tasks created
in the same process run — at any request times `now1`, `now2`, which the
create path never reads — carry the import-time value, hence identical
created_at timestamps. -/
theorem C9_created_at_import_constant (importT : Nat) (s1 s2 : Store)
    (now1 now2 : Nat) (p1 p2 : CreatePayload) (t1 t2 : Task) (r1 r2 : Store)
    (h1 : create_task (moduleInit importT) s1 now1 p1 = (.created t1, r1))
    (h2 : create_task (moduleInit importT) s2 now2 p2 = (.created t2, r2)) :
    t1.created_at = importT ∧ t2.created_at = importT ∧
      t1.created_at = t2.created_at := by
  obtain ⟨v1, st1, _, _, ht1, _⟩ := create_task_created h1
  obtain ⟨v2, st2, _, _, ht2, _⟩ := create_task_created h2
  subst ht1
  subst ht2
  exact ⟨rfl, rfl, rfl⟩

/-- C9 witness: two creations at different request times (100 and 200) in a
process imported at time 7 both stamp created_at = 7. -/
theorem C9_created_at_import_constant_witness :
    (⟨1, "a", none, .todo, 7, none⟩ : Task).created_at = 7 ∧
    (⟨1, "b", none, .todo, 7, none⟩ : Task).created_at = 7 ∧
    (⟨1, "a", none, .todo, 7, none⟩ : Task).created_at =
      (⟨1, "b", none, .todo, 7, none⟩ : Task).created_at :=
  C9_created_at_import_constant 7 Store.empty Store.empty 100 200
    { title? := some "a" } { title? := some "b" }
    ⟨1, "a", none, .todo, 7, none⟩ ⟨1, "b", none, .todo, 7, none⟩
    ⟨[⟨1, "a", none, .todo, 7, none⟩], 2⟩ ⟨[⟨1, "b", none, .todo, 7, none⟩], 2⟩
    (by decide) (by decide)

/-- C10: a partial update whose payload carries an invalid status value is
all-or-nothing: for any existing task and any such non-empty payload —
including one that also carries a title or description, assigned earlier in
the handler — the request answers 400 "invalid status" and the store is
returned unchanged, because the early return closes the session without
commit. -/
theorem C10_invalid_status_update_atomic (s : Store) (id : Nat) (p : UpdatePayload)
    (t : Task) (sv : String)
    (hfind : findT s.tasks id = some t) (hne : p.isEmpty = false)
    (hS : p.status? = some sv) (hsv : TaskStatus.ofString sv = none) :
    update_task s id p = (.invalidStatus, s) ∧
    UpdateResult.httpStatus .invalidStatus = 400 ∧
    UpdateResult.errorMessage .invalidStatus = some "invalid status" := by
  refine ⟨?_, rfl, rfl⟩
  have happ : applyStatus (applyDescription (applyTitle t p.title?) p.description?)
      p.status? = none := by
    rw [hS]
    simp [applyStatus, hsv]
  rw [update_task, if_neg (by simp [hne]), hfind]
  simp only [happ]

/-- C10 witness: a concrete update carrying both a new title and the status
"bogus" answers 400 and persists nothing, not even the title. -/
theorem C10_invalid_status_update_atomic_witness :
    update_task ⟨[⟨1, "a", none, .todo, 0, none⟩], 2⟩ 1
        { title? := some "changed", status? := some "bogus" } =
      (.invalidStatus, ⟨[⟨1, "a", none, .todo, 0, none⟩], 2⟩) ∧
    UpdateResult.httpStatus .invalidStatus = 400 ∧
    UpdateResult.errorMessage .invalidStatus = some "invalid status" :=
  C10_invalid_status_update_atomic ⟨[⟨1, "a", none, .todo, 0, none⟩], 2⟩ 1
    { title? := some "changed", status? := some "bogus" }
    ⟨1, "a", none, .todo, 0, none⟩ "bogus" (by decide) (by decide) rfl (by decide)

end TaskManager
